import Mathlib

/-!
Shallow embedding of the bandwidth monitor (src/bandwidth.py).

Samples are Python floats; we model them as exact rationals (ℚ), so the
running-total bookkeeping that the source maintains incrementally is exact
here.  Byte counters and monthly totals are Python ints, modelled as ℤ.
Month keys are the strftime strings the source compares, modelled as String.
-/

namespace Bandwidth

/-- SAMPLE_INTERVAL_SECONDS, src/bandwidth.py line 24. -/
def SAMPLE_INTERVAL_SECONDS : Nat := 5

/-- MAX_SAMPLES = (12 * 60 * 60) // SAMPLE_INTERVAL_SECONDS, src/bandwidth.py line 25. -/
def MAX_SAMPLES : Nat := (12 * 60 * 60) / SAMPLE_INTERVAL_SECONDS

/-- The monthly traffic dictionary kept in monthly_traffic_state:
{"month": ..., "total_bytes_sent": ..., "total_bytes_recv": ...}
(src/bandwidth.py lines 114-118, 179-183). -/
structure MonthlyState where
  month : String
  total_bytes_sent : Int
  total_bytes_recv : Int
deriving DecidableEq

/-- A JSON object (Python dict) as parsed by json.load in
load_monthly_traffic (src/bandwidth.py lines 102-104): any of the three
keys the program later reads may be absent, so each field is optional.
Line 105 adopts such a dict wholesale. -/
structure PersistedDict where
  month : Option String
  total_bytes_sent : Option Int
  total_bytes_recv : Option Int
deriving DecidableEq

/-- The fresh zeroed state built at src/bandwidth.py lines 114-118. -/
def freshState (currentMonth : String) : MonthlyState :=
  { month := currentMonth, total_bytes_sent := 0, total_bytes_recv := 0 }

/-- The fresh zeroed dict of lines 114-118, seen as a dict with all three
keys present, comparable with an adopted persisted dict. -/
def freshDict (currentMonth : String) : PersistedDict :=
  { month := some currentMonth, total_bytes_sent := some 0,
    total_bytes_recv := some 0 }

/-- What reading and parsing PERSISTENCE_FILE can do when the file exists
(src/bandwidth.py lines 100-104): open or read raises IOError (caught at
line 108); the raw bytes do not decode and open/read raises
UnicodeDecodeError, which is not JSONDecodeError and not IOError, so it is
NOT caught; json.load raises JSONDecodeError (caught at line 108);
json.load yields a non-object (null, list, number, string), so
data.get at line 104 raises AttributeError, which is NOT caught; or
json.load yields an object d. -/
inductive ReadOutcome where
  | ioError
  | undecodable
  | parseError
  | nonObject
  | object (d : PersistedDict)
deriving DecidableEq

/-- The exceptions that escape load_monthly_traffic: the except clause at
line 108 names only json.JSONDecodeError and IOError, so these two
propagate to the caller (the startup event at line 241). -/
inductive LoadError where
  | unicodeDecodeError
  | attributeError
deriving DecidableEq

/-- load_monthly_traffic, src/bandwidth.py lines 97-118.  Input: `none`
when PERSISTENCE_FILE.exists() is false, otherwise the outcome of reading
and parsing the file.  Caught failures (IOError, JSONDecodeError) and a
month mismatch fall through to the fresh zeroed state of lines 113-118; a
parsed object whose month equals the current month is adopted as-is at
line 105; UnicodeDecodeError and the AttributeError from data.get on a
non-object propagate out as errors. -/
def load_monthly_traffic (file : Option ReadOutcome)
    (currentMonth : String) : Except LoadError PersistedDict :=
  match file with
  | none => .ok (freshDict currentMonth)
  | some .ioError => .ok (freshDict currentMonth)
  | some .undecodable => .error .unicodeDecodeError
  | some .parseError => .ok (freshDict currentMonth)
  | some .nonObject => .error .attributeError
  | some (.object d) =>
    if d.month = some currentMonth then .ok d
    else .ok (freshDict currentMonth)

/-- One sliding-window record step for one direction, src/bandwidth.py
lines 164-167 (and identically 169-172): append the sample to the deque,
add it to the running total, and if the deque length now exceeds
MAX_SAMPLES, popleft the oldest sample and subtract it from the total.
Parametric in the bound N. -/
def record (N : Nat) (samples : List ℚ) (total : ℚ) (x : ℚ) : List ℚ × ℚ :=
  let samples := samples ++ [x]
  let total := total + x
  if samples.length > N then
    match samples with
    | [] => (samples, total)
    | y :: rest => (rest, total - y)
  else (samples, total)

/-- The monthly accumulation step, src/bandwidth.py lines 174-185: if the
stored month differs from the current month string, replace the state with
a zeroed state for the new month; then add both deltas to the totals. -/
def accumulate (st : MonthlyState) (bytes_sent_delta bytes_recv_delta : Int)
    (currentMonth : String) : MonthlyState :=
  let st := if st.month ≠ currentMonth then freshState currentMonth else st
  { st with
    total_bytes_sent := st.total_bytes_sent + bytes_sent_delta,
    total_bytes_recv := st.total_bytes_recv + bytes_recv_delta }

/-- The averages and sample count computed by get_bandwidth_stats,
src/bandwidth.py lines 197-203, before the two-decimal rounding applied to
the response body: if sent_samples is empty, (0.0, 0.0, 0); otherwise
(running_total_sent / len(sent_samples), running_total_recv /
len(sent_samples), len(sent_samples)).  Note the divisor for both
directions is the length of the sent deque. -/
def get_bandwidth_stats (sent_samples recv_samples : List ℚ)
    (running_total_sent running_total_recv : ℚ) : ℚ × ℚ × Nat :=
  if sent_samples.isEmpty then (0, 0, 0)
  else
    let current_count := sent_samples.length
    (running_total_sent / current_count, running_total_recv / current_count,
      current_count)

/-- The mutable state owned by monitor_bandwidth together with the shared
globals it mutates (src/bandwidth.py lines 85-92, 135-191).  `running` is
false exactly when the initial counter read failed and the coroutine
returned at line 147 (the STOPPED state of the spec). -/
structure SysState where
  running : Bool
  sent_samples : List ℚ
  recv_samples : List ℚ
  running_total_sent : ℚ
  running_total_recv : ℚ
  monthly : MonthlyState
  last_bytes_sent : Int
  last_bytes_recv : Int
  last_check_time : ℚ
deriving DecidableEq

/-- One wake-up of the monitor loop as seen by the state machine: either
psutil.net_io_counters raises (readFail), or it returns cumulative
counters while the wall clock reads currentTime and strftime("%Y-%m")
reads currentMonth (readOk). -/
inductive Tick where
  | readFail (currentTime : ℚ)
  | readOk (bytes_sent bytes_recv : Int) (currentTime : ℚ) (currentMonth : String)
deriving DecidableEq

/-- The body of the while-loop of monitor_bandwidth, src/bandwidth.py
lines 150-191.  When the read raises, the except arm at line 190 only logs,
so the state is unchanged.  On a successful read, deltas are formed against
the stored baseline; if time_delta > 0 a speed sample
(delta * 8) / 1_000_000 / time_delta is recorded per direction and the
monthly state accumulated, and in either case the baseline counters and
last_check_time advance to the just-read values (lines 187-189).  When the
task never started (running = false) nothing ever runs. -/
def step (s : SysState) (t : Tick) : SysState :=
  if s.running then
    match t with
    | .readFail _ => s
    | .readOk bs br ct cm =>
      let time_delta := ct - s.last_check_time
      let bytes_sent_delta := bs - s.last_bytes_sent
      let bytes_recv_delta := br - s.last_bytes_recv
      if time_delta > 0 then
        let speed_sent_mbps := ((bytes_sent_delta : ℚ) * 8) / 1000000 / time_delta
        let speed_recv_mbps := ((bytes_recv_delta : ℚ) * 8) / 1000000 / time_delta
        let sent := record MAX_SAMPLES s.sent_samples s.running_total_sent speed_sent_mbps
        let recv := record MAX_SAMPLES s.recv_samples s.running_total_recv speed_recv_mbps
        { s with
          sent_samples := sent.1, running_total_sent := sent.2,
          recv_samples := recv.1, running_total_recv := recv.2,
          monthly := accumulate s.monthly bytes_sent_delta bytes_recv_delta cm,
          last_bytes_sent := bs, last_bytes_recv := br, last_check_time := ct }
      else
        { s with last_bytes_sent := bs, last_bytes_recv := br, last_check_time := ct }
  else s

/-- The state after the setup in monitor_bandwidth lines 137-149, starting
from the empty globals of lines 87-91 and a monthly state m0 produced by
load_monthly_traffic at startup.  `initialRead = none` is the except arm at
lines 143-147: the function returns and the loop never runs. -/
def initState (initialRead : Option (Int × Int)) (t0 : ℚ) (m0 : MonthlyState) : SysState :=
  match initialRead with
  | none =>
    { running := false, sent_samples := [], recv_samples := [],
      running_total_sent := 0, running_total_recv := 0, monthly := m0,
      last_bytes_sent := 0, last_bytes_recv := 0, last_check_time := t0 }
  | some (bs, br) =>
    { running := true, sent_samples := [], recv_samples := [],
      running_total_sent := 0, running_total_recv := 0, monthly := m0,
      last_bytes_sent := bs, last_bytes_recv := br, last_check_time := t0 }

/-- Running the monitor loop over a sequence of wake-ups. -/
def runTicks (s : SysState) (ts : List Tick) : SysState :=
  ts.foldl step s

/-- Folding `record` for one direction over a sample sequence, starting
from the empty deque and zero total (the globals at lines 87-90). -/
def recordAll (N : Nat) (xs : List ℚ) : List ℚ × ℚ :=
  xs.foldl (fun p x => record N p.1 p.2 x) ([], 0)

/-- The bandwidth snapshot served from a system state: get_bandwidth_stats
reading the shared globals under the lock (src/bandwidth.py lines 197-203). -/
def snapshotOf (s : SysState) : ℚ × ℚ × Nat :=
  get_bandwidth_stats s.sent_samples s.recv_samples s.running_total_sent
    s.running_total_recv

/- Helper lemmas. -/

theorem record_inv (N : Nat) (samples : List ℚ) (total x : ℚ)
    (hlen : samples.length ≤ N) (hsum : total = samples.sum) :
    (record N samples total x).1.length ≤ N ∧
      (record N samples total x).2 = (record N samples total x).1.sum := by
  subst hsum
  cases samples with
  | nil =>
    simp only [record, List.nil_append]
    split
    · refine ⟨by simp, by simp⟩
    · next hle => refine ⟨by simp_all; omega, by simp⟩
  | cons a l =>
    simp only [record, List.cons_append]
    split
    · next hgt =>
      refine ⟨by simp_all, ?_⟩
      simp only [List.sum_cons, List.sum_append, List.sum_cons, List.sum_nil]
      ring
    · next hle =>
      refine ⟨by simp_all, ?_⟩
      simp only [List.sum_cons, List.sum_append, List.sum_nil]
      ring

theorem record_fst_length (N : Nat) (samples : List ℚ) (total x : ℚ) :
    (record N samples total x).1.length =
      if samples.length + 1 > N then samples.length else samples.length + 1 := by
  cases samples with
  | nil =>
    simp only [record, List.nil_append]
    split <;> split <;> simp_all
  | cons a l =>
    simp only [record, List.cons_append]
    split <;> split <;> simp_all <;> omega

theorem foldl_record_inv (N : Nat) (xs : List ℚ) (p : List ℚ × ℚ)
    (hlen : p.1.length ≤ N) (hsum : p.2 = p.1.sum) :
    (xs.foldl (fun q x => record N q.1 q.2 x) p).1.length ≤ N ∧
      (xs.foldl (fun q x => record N q.1 q.2 x) p).2 =
        (xs.foldl (fun q x => record N q.1 q.2 x) p).1.sum := by
  induction xs generalizing p with
  | nil => exact ⟨hlen, hsum⟩
  | cons y ys ih =>
    simp only [List.foldl_cons]
    obtain ⟨h1, h2⟩ := record_inv N p.1 p.2 y hlen hsum
    exact ih (record N p.1 p.2 y) h1 h2

theorem step_len_eq (s : SysState) (t : Tick)
    (h : s.sent_samples.length = s.recv_samples.length) :
    (step s t).sent_samples.length = (step s t).recv_samples.length := by
  cases hr : s.running with
  | false => simp [step, hr, h]
  | true =>
    cases t with
    | readFail ct => simp [step, hr, h]
    | readOk bs br ct cm =>
      by_cases hdt : ct - s.last_check_time > 0
      · simp [step, hr, hdt, record_fst_length, h]
      · simp [step, hr, hdt, h]

theorem runTicks_len_eq (s : SysState) (ts : List Tick)
    (h : s.sent_samples.length = s.recv_samples.length) :
    (runTicks s ts).sent_samples.length = (runTicks s ts).recv_samples.length := by
  induction ts generalizing s with
  | nil => exact h
  | cons t ts ih =>
    simp only [runTicks, List.foldl_cons] at ih ⊢
    exact ih (step s t) (step_len_eq s t h)

theorem initState_len_eq (ir : Option (Int × Int)) (t0 : ℚ) (m0 : MonthlyState) :
    (initState ir t0 m0).sent_samples.length =
      (initState ir t0 m0).recv_samples.length := by
  cases ir with
  | none => rfl
  | some p => cases p; rfl

theorem step_not_running (s : SysState) (t : Tick) (h : s.running = false) :
    step s t = s := by
  simp [step, h]

theorem runTicks_not_running (s : SysState) (ts : List Tick)
    (h : s.running = false) : runTicks s ts = s := by
  induction ts with
  | nil => rfl
  | cons t ts ih =>
    simp only [runTicks, List.foldl_cons] at ih ⊢
    rw [step_not_running s t h, ih]

/- Claim theorems. -/

/-- C1: for every sequence of record operations on one direction, after
each operation the window length is at most N and the running total equals
the sum of the samples currently in the window (exactly, in the rational
model), the total being maintained incrementally by record. -/
theorem window_bound_and_running_total_inv (N : Nat) (xs : List ℚ) :
    (recordAll N xs).1.length ≤ N ∧
      (recordAll N xs).2 = (recordAll N xs).1.sum :=
  foldl_record_inv N xs ([], 0) (by simp) (by simp)

/-- C2: when the stored month differs from the current month string,
accumulate first resets to a zeroed state for the new month and then adds
only the new deltas, so the result is exactly the new month with the new
deltas as totals. -/
theorem month_rollover_discards_totals (st : MonthlyState)
    (sd rd : Int) (cm : String) (h : st.month ≠ cm) :
    accumulate st sd rd cm = ⟨cm, sd, rd⟩ := by
  simp [accumulate, freshState, h]

/-- C2 witness: from {month 2024-01, sent 1000, recv 2000}, accumulating
(10, 20) in 2024-02 yields exactly {month 2024-02, sent 10, recv 20}. -/
theorem month_rollover_discards_totals_witness :
    accumulate ⟨"2024-01", 1000, 2000⟩ 10 20 "2024-02" = ⟨"2024-02", 10, 20⟩ :=
  month_rollover_discards_totals ⟨"2024-01", 1000, 2000⟩ 10 20 "2024-02"
    (by decide)

/-- C3: on a running tick whose successful read has elapsed time zero or
negative, no sample is recorded and the monthly state is untouched, yet the
baseline counters and last check time are advanced to the just-read
values. -/
theorem clock_anomaly_advances_baseline_only (s : SysState) (bs br : Int)
    (ct : ℚ) (cm : String) (hrun : s.running = true)
    (hdt : ct - s.last_check_time ≤ 0) :
    step s (.readOk bs br ct cm) =
      { s with last_bytes_sent := bs, last_bytes_recv := br,
               last_check_time := ct } := by
  have hneg : ¬ ct - s.last_check_time > 0 := by linarith
  simp [step, hrun, hneg]

/-- C3 witness: a concrete zero-elapsed tick only rewrites the baseline. -/
theorem clock_anomaly_advances_baseline_only_witness :
    step (initState (some (3, 4)) 5 (freshState "2024-06"))
        (.readOk 9 11 5 "2024-06") =
      { initState (some (3, 4)) 5 (freshState "2024-06") with
        last_bytes_sent := 9, last_bytes_recv := 11, last_check_time := 5 } :=
  clock_anomaly_advances_baseline_only
    (initState (some (3, 4)) 5 (freshState "2024-06")) 9 11 5 "2024-06"
    (by decide) (by norm_num [initState])

/-- C4: on a running tick where the counter read raises, the whole state is
unchanged: the loop stays running, the baseline and last check time are not
advanced, and no window, running total or monthly mutation occurs. -/
theorem read_failure_leaves_state_unchanged (s : SysState) (ct : ℚ)
    (hrun : s.running = true) :
    step s (.readFail ct) = s := by
  simp [step, hrun]

/-- C4 witness: a concrete failed read is a no-op on a running state. -/
theorem read_failure_leaves_state_unchanged_witness :
    step (initState (some (3, 4)) 5 (freshState "2024-06")) (.readFail 10) =
      initState (some (3, 4)) 5 (freshState "2024-06") :=
  read_failure_leaves_state_unchanged
    (initState (some (3, 4)) 5 (freshState "2024-06")) 10 (by decide)

/-- C5 counterexample: the claim says a read failure never propagates an
error out of the startup load, but a file with undecodable bytes
(UnicodeDecodeError) and a file parsing to a non-object JSON value
(AttributeError at data.get, line 104) both escape the except clause at
line 108, so load_monthly_traffic returns an error and no state at all. -/
theorem load_error_propagation_counterexample :
    load_monthly_traffic (some ReadOutcome.undecodable) "2024-06" =
        Except.error LoadError.unicodeDecodeError ∧
      load_monthly_traffic (some ReadOutcome.nonObject) "2024-06" =
        Except.error LoadError.attributeError ∧
      ¬ ∃ st, load_monthly_traffic (some ReadOutcome.undecodable) "2024-06" =
        Except.ok st := by
  refine ⟨rfl, rfl, ?_⟩
  rintro ⟨st, h⟩
  exact Except.noConfusion h

/-- C5 amended: the startup load adopts the persisted record exactly when
one exists, decodes, parses to an object, and its stored month equals the
current month; a missing file, a caught read or parse failure (IOError,
JSONDecodeError) and a month mismatch all yield the fresh zeroed state;
but an undecodable file propagates UnicodeDecodeError and a file parsing
to a non-object propagates the AttributeError raised by data.get. -/
theorem load_adopts_iff_month_matches (file : Option ReadOutcome)
    (cm : String) :
    ((∃ d, file = some (ReadOutcome.object d) ∧ d.month = some cm) →
      ∃ d, file = some (ReadOutcome.object d) ∧
        load_monthly_traffic file cm = Except.ok d) ∧
    ((¬ ∃ d, file = some (ReadOutcome.object d) ∧ d.month = some cm) →
      file ≠ some ReadOutcome.undecodable →
      file ≠ some ReadOutcome.nonObject →
        load_monthly_traffic file cm = Except.ok (freshDict cm)) ∧
    (file = some ReadOutcome.undecodable →
      load_monthly_traffic file cm =
        Except.error LoadError.unicodeDecodeError) ∧
    (file = some ReadOutcome.nonObject →
      load_monthly_traffic file cm = Except.error LoadError.attributeError) := by
  refine ⟨?_, ?_, ?_, ?_⟩
  · rintro ⟨d, rfl, hm⟩
    exact ⟨d, rfl, by simp [load_monthly_traffic, hm]⟩
  · intro h hu hn
    cases file with
    | none => rfl
    | some outcome =>
      cases outcome with
      | ioError => rfl
      | undecodable => exact absurd rfl hu
      | parseError => rfl
      | nonObject => exact absurd rfl hn
      | object d =>
        have hm : ¬ d.month = some cm := fun hc => h ⟨d, rfl, hc⟩
        simp [load_monthly_traffic, hm]
  · rintro rfl
    rfl
  · rintro rfl
    rfl

/-- C5 amended witness: a matching object is adopted with its fields as
stored; a caught parse failure gives the fresh dict; an undecodable file
gives the propagated error. -/
theorem load_adopts_iff_month_matches_witness :
    load_monthly_traffic
        (some (ReadOutcome.object ⟨some "2024-06", some 5, none⟩)) "2024-06" =
        Except.ok ⟨some "2024-06", some 5, none⟩ ∧
      load_monthly_traffic (some ReadOutcome.parseError) "2024-06" =
        Except.ok (freshDict "2024-06") ∧
      load_monthly_traffic (some ReadOutcome.undecodable) "2024-07" =
        Except.error LoadError.unicodeDecodeError := by
  refine ⟨?_, ?_, ?_⟩
  · obtain ⟨d, hd, hload⟩ :=
      (load_adopts_iff_month_matches
        (some (ReadOutcome.object ⟨some "2024-06", some 5, none⟩)) "2024-06").1
        ⟨⟨some "2024-06", some 5, none⟩, rfl, rfl⟩
    have hde : (⟨some "2024-06", some 5, none⟩ : PersistedDict) = d := by
      injection hd with h1
      injection h1
    rw [← hde] at hload
    exact hload
  · refine (load_adopts_iff_month_matches
      (some ReadOutcome.parseError) "2024-06").2.1 ?_ (by decide) (by decide)
    rintro ⟨d, hd, hm⟩
    injection hd with h1
    exact ReadOutcome.noConfusion h1
  · exact (load_adopts_iff_month_matches
      (some ReadOutcome.undecodable) "2024-07").2.2.1 rfl

/-- C6: the bandwidth snapshot built from any state reachable by the
monitor loop returns, for each direction, the running total divided by the
length of that window of the direction when the window is non-empty, and
(0, 0) with sample count 0 when the window is empty, never dividing by
zero. -/
theorem snapshot_average_spec (ir : Option (Int × Int)) (t0 : ℚ)
    (m0 : MonthlyState) (ts : List Tick) :
    ((runTicks (initState ir t0 m0) ts).sent_samples.isEmpty = true →
      snapshotOf (runTicks (initState ir t0 m0) ts) = (0, 0, 0)) ∧
    ((runTicks (initState ir t0 m0) ts).sent_samples.isEmpty = false →
      snapshotOf (runTicks (initState ir t0 m0) ts) =
        ((runTicks (initState ir t0 m0) ts).running_total_sent /
            ((runTicks (initState ir t0 m0) ts).sent_samples.length : ℚ),
          (runTicks (initState ir t0 m0) ts).running_total_recv /
            ((runTicks (initState ir t0 m0) ts).recv_samples.length : ℚ),
          (runTicks (initState ir t0 m0) ts).sent_samples.length)) := by
  have hlen := runTicks_len_eq (initState ir t0 m0) ts
    (initState_len_eq ir t0 m0)
  constructor
  · intro h
    simp [snapshotOf, get_bandwidth_stats, h]
  · intro h
    simp [snapshotOf, get_bandwidth_stats, h, hlen]

/-- C6 witness: the empty snapshot at startup, and a one-sample snapshot
after one successful tick. -/
theorem snapshot_average_spec_witness :
    snapshotOf (runTicks (initState (some (0, 0)) 0 (freshState "2024-06"))
        []) = (0, 0, 0) ∧
      snapshotOf (runTicks (initState (some (0, 0)) 0 (freshState "2024-06"))
          [.readOk 1000000 2000000 1 "2024-06"]) =
        ((runTicks (initState (some (0, 0)) 0 (freshState "2024-06"))
            [.readOk 1000000 2000000 1 "2024-06"]).running_total_sent /
            (((runTicks (initState (some (0, 0)) 0 (freshState "2024-06"))
              [.readOk 1000000 2000000 1 "2024-06"]).sent_samples.length : Nat) : ℚ),
          (runTicks (initState (some (0, 0)) 0 (freshState "2024-06"))
            [.readOk 1000000 2000000 1 "2024-06"]).running_total_recv /
            (((runTicks (initState (some (0, 0)) 0 (freshState "2024-06"))
              [.readOk 1000000 2000000 1 "2024-06"]).recv_samples.length : Nat) : ℚ),
          (runTicks (initState (some (0, 0)) 0 (freshState "2024-06"))
            [.readOk 1000000 2000000 1 "2024-06"]).sent_samples.length) :=
  ⟨(snapshot_average_spec (some (0, 0)) 0 (freshState "2024-06") []).1
      (by decide),
    (snapshot_average_spec (some (0, 0)) 0 (freshState "2024-06")
      [.readOk 1000000 2000000 1 "2024-06"]).2
      (by norm_num [runTicks, step, initState, record, MAX_SAMPLES, SAMPLE_INTERVAL_SECONDS])⟩

/-- C7: when the initial baseline read fails, the loop state is STOPPED and
every subsequent sequence of ticks leaves the state exactly as it started:
no sample is ever recorded, the monthly state is never mutated, and the
snapshot served is forever the initial one. -/
theorem baseline_failure_stops_forever (t0 : ℚ) (m0 : MonthlyState)
    (ts : List Tick) :
    runTicks (initState none t0 m0) ts = initState none t0 m0 ∧
      (runTicks (initState none t0 m0) ts).monthly = (initState none t0 m0).monthly ∧
      snapshotOf (runTicks (initState none t0 m0) ts) =
        snapshotOf (initState none t0 m0) := by
  have h : runTicks (initState none t0 m0) ts = initState none t0 m0 :=
    runTicks_not_running (initState none t0 m0) ts rfl
  exact ⟨h, by rw [h], by rw [h]⟩

/-- C8: within a single month, accumulate adds both deltas exactly as
given, and a negative delta decreases the corresponding total (no
clamping). -/
theorem same_month_accumulate_adds_exactly (st : MonthlyState)
    (sd rd : Int) (cm : String) (h : st.month = cm) :
    accumulate st sd rd cm =
        ⟨st.month, st.total_bytes_sent + sd, st.total_bytes_recv + rd⟩ ∧
      (sd < 0 →
        (accumulate st sd rd cm).total_bytes_sent < st.total_bytes_sent) ∧
      (rd < 0 →
        (accumulate st sd rd cm).total_bytes_recv < st.total_bytes_recv) := by
  have he : accumulate st sd rd cm =
      ⟨st.month, st.total_bytes_sent + sd, st.total_bytes_recv + rd⟩ := by
    simp [accumulate, h]
  refine ⟨he, ?_, ?_⟩
  · intro hs
    rw [he]
    show st.total_bytes_sent + sd < st.total_bytes_sent
    omega
  · intro hr
    rw [he]
    show st.total_bytes_recv + rd < st.total_bytes_recv
    omega

/-- C8 witness: accumulating (100, 200) then (50, 50) in one month yields
totals (150, 250), and a negative sent delta decreases the sent total. -/
theorem same_month_accumulate_adds_exactly_witness :
    accumulate (accumulate (freshState "2024-06") 100 200 "2024-06") 50 50
        "2024-06" = ⟨"2024-06", 150, 250⟩ ∧
      (accumulate ⟨"2024-06", 7, 7⟩ (-3) 0 "2024-06").total_bytes_sent < 7 := by
  have h1 : accumulate (freshState "2024-06") 100 200 "2024-06" =
      ⟨"2024-06", 100, 200⟩ := by decide
  constructor
  · rw [h1]
    have h2 := (same_month_accumulate_adds_exactly ⟨"2024-06", 100, 200⟩
      50 50 "2024-06" rfl).1
    rw [h2]
    decide
  · exact (same_month_accumulate_adds_exactly ⟨"2024-06", 7, 7⟩ (-3) 0
      "2024-06" rfl).2.1 (by decide)

/-- C9: with bound N = 3, recording 10, 20, 30 then 40 leaves the window
[20, 30, 40] with running total 90 (the oldest sample 10 evicted first),
and the snapshot average over that window is exactly 30. -/
theorem fifo_eviction_example :
    recordAll 3 [10, 20, 30, 40] = ([20, 30, 40], 90) ∧
      (get_bandwidth_stats (recordAll 3 [10, 20, 30, 40]).1
        (recordAll 3 [10, 20, 30, 40]).1 (recordAll 3 [10, 20, 30, 40]).2
        (recordAll 3 [10, 20, 30, 40]).2).1 = 30 := by
  constructor <;> norm_num [recordAll, record, get_bandwidth_stats]

/-- C10: after any sequence of monitor ticks the sent and received windows
have equal length, so the received average of the snapshot, which the code
computes as the received running total divided by the length of the sent
window, equals the received running total divided by the length of the
received window. -/
theorem windows_equal_length_inv (ir : Option (Int × Int)) (t0 : ℚ)
    (m0 : MonthlyState) (ts : List Tick) :
    (runTicks (initState ir t0 m0) ts).sent_samples.length =
        (runTicks (initState ir t0 m0) ts).recv_samples.length ∧
      ((runTicks (initState ir t0 m0) ts).sent_samples.isEmpty = false →
        (snapshotOf (runTicks (initState ir t0 m0) ts)).2.1 =
          (runTicks (initState ir t0 m0) ts).running_total_recv /
            (((runTicks (initState ir t0 m0) ts).recv_samples.length : Nat) : ℚ)) := by
  have hlen := runTicks_len_eq (initState ir t0 m0) ts
    (initState_len_eq ir t0 m0)
  refine ⟨hlen, ?_⟩
  intro h
  simp [snapshotOf, get_bandwidth_stats, h, hlen]

/-- C10 witness: equal window lengths and the received-average identity
after one concrete successful tick. -/
theorem windows_equal_length_inv_witness :
    (runTicks (initState (some (0, 0)) 0 (freshState "2024-07"))
        [.readOk 500000 1500000 1 "2024-07"]).sent_samples.length =
        (runTicks (initState (some (0, 0)) 0 (freshState "2024-07"))
          [.readOk 500000 1500000 1 "2024-07"]).recv_samples.length ∧
      (snapshotOf (runTicks (initState (some (0, 0)) 0 (freshState "2024-07"))
          [.readOk 500000 1500000 1 "2024-07"])).2.1 =
        (runTicks (initState (some (0, 0)) 0 (freshState "2024-07"))
          [.readOk 500000 1500000 1 "2024-07"]).running_total_recv /
          (((runTicks (initState (some (0, 0)) 0 (freshState "2024-07"))
            [.readOk 500000 1500000 1 "2024-07"]).recv_samples.length : Nat) : ℚ) :=
  ⟨(windows_equal_length_inv (some (0, 0)) 0 (freshState "2024-07")
      [.readOk 500000 1500000 1 "2024-07"]).1,
    (windows_equal_length_inv (some (0, 0)) 0 (freshState "2024-07")
      [.readOk 500000 1500000 1 "2024-07"]).2
      (by norm_num [runTicks, step, initState, record, MAX_SAMPLES, SAMPLE_INTERVAL_SECONDS])⟩

end Bandwidth
